import Mathlib

/-!
Verification development for the realtime-meeting-transcription proxy.

The definitions below are a shallow embedding of the TypeScript sources:

* `proxy.ts` (class TranscriptionProxy): constructor, webhook route,
  webhook event processing, ingress WebSocket message handling, gated
  audio forwarding, transcription-session start, WAV writing, and the
  fatal-error shutdown path.
* `transcriptLogger.ts` (class TranscriptLogger): the per-session
  transcript journal and the plain-text artifact.
* `config.ts` / `index.ts`: configuration validation and the process
  exit sites.

Machine integers are modelled as `Nat`; Node buffer writes truncate with
explicit `% 256` per little-endian byte.  Stateful methods become pure
functions from a `ProxyState` to a new state plus a list of observable
`Output` actions (provider sends, bot-client sends, UI signals, logs).
Asynchronous provider-session completion is modelled as a separate
`SessionEvent`, since the source flips `isGladiaSessionActive` inside a
promise continuation, not synchronously.
-/

namespace RealtimeTranscription

/-- Speaker metadata carried by a `SpeakerMeta` ingress frame
(interface SpeakerInfo in proxy.ts). -/
structure SpeakerInfo where
  name : String
  id : Nat
  timestamp : Nat
  isSpeaking : Bool
deriving Repr, DecidableEq

/-- Classification of one inbound WebSocket message, as performed by the
ingress handler in proxy.ts (setupMeetingBaasClient): a binary frame is
probed as JSON; a JSON array whose first element has `name` and
`isSpeaking` is speaker metadata; other successfully parsed JSON is
logged; a binary frame that fails to parse as JSON is PCM audio; a
non-binary frame is plain text. -/
inductive IngressMsg where
  | speakerMeta (info : SpeakerInfo)
  | otherJson (raw : String)
  | pcm (bytes : List Nat)
  | textFrame (raw : String)
deriving Repr, DecidableEq

/-- The nested `status` value of a `bot.status_change` webhook payload:
either a plain string or an object carrying an optional `code` field. -/
inductive StatusValue where
  | str (s : String)
  | obj (code : Option String)
deriving Repr, DecidableEq

/-- One decoded MeetingBaas webhook event: the `event` discriminator and
the `data.status` field (the only payload field the state machine
consults). -/
structure WebhookEvent where
  event : String
  status : Option StatusValue
deriving Repr, DecidableEq

/-- `statusCode` extraction in proxy.ts (bot.status_change case):
`typeof statusObj === "object" && statusObj !== null ? statusObj.code :
statusObj`. -/
def statusCodeOf : Option StatusValue → Option String
  | none => none
  | some (.str s) => some s
  | some (.obj c) => c

/-- The mutable fields of class TranscriptionProxy that the verified
claims depend on.  `droppedAudioWarnCount` counts the emissions of the
"Transcription session not active yet, dropping audio chunk" warning
(proxy.ts lines 578-581), i.e. the dropped-frame counter.
`initSessionCalls` counts calls of `gladiaClient.initSession()`
(line 650), i.e. provider-session starts. -/
structure ProxyState where
  mode : String
  waitingForRecordingStatus : Bool
  transcriptionInitialized : Bool
  isGladiaSessionActive : Bool
  lastSpeaker : Option String
  audioBuffers : List (List Nat)
  droppedAudioWarnCount : Nat
  botClient : Option Nat
  recordingEnabled : Bool
  initSessionCalls : Nat
deriving Repr, DecidableEq

/-- The TranscriptionProxy constructor (proxy.ts lines 126-137): in
`Local` mode the startup gate is open from the start
(`waitingForRecordingStatus = false`); in any other mode it is closed
until the `in_call_not_recording` webhook. -/
def mkProxyState (mode : String) (recordingEnabled : Bool) : ProxyState :=
  { mode := mode
    waitingForRecordingStatus := mode ≠ "Local"
    transcriptionInitialized := false
    isGladiaSessionActive := false
    lastSpeaker := none
    audioBuffers := []
    droppedAudioWarnCount := 0
    botClient := none
    recordingEnabled := recordingEnabled
    initSessionCalls := 0 }

/-- A payload sent to the bot-registered client.  The source has exactly
two send sites: the transcription callback (proxy.ts lines 184-197)
sends a JSON envelope of shape
`{type:"transcription", data:{text, isFinal, startTime, endTime}}`,
and the ingress handler (lines 599-602) relays `message.toString()` of
the incoming ingress message verbatim. -/
inductive BotPayload where
  | transcription (text : String) (isFinal : Bool) (startTime endTime : Nat)
  | relayedIngress (m : IngressMsg)
deriving Repr, DecidableEq

/-- Observable actions of the proxy. -/
inductive Output where
  | sendToProvider (bytes : List Nat)
  | sendToBot (p : BotPayload)
  | speakerChangeSignal (name : String)
  | warnDroppedAudio
  | closeClient (c : Nat)
deriving Repr, DecidableEq

/-- initializeTranscriptionSession (proxy.ts lines 640-646, state part):
guarded no-op when already initialized or a provider session is active;
otherwise marks the session initialized and calls
`gladiaClient.initSession()` once (counted by `initSessionCalls`).  The
asynchronous completion of that call is a separate `SessionEvent`. -/
def initTranscriptionSession (st : ProxyState) : ProxyState :=
  if st.transcriptionInitialized || st.isGladiaSessionActive then st
  else { st with transcriptionInitialized := true
                 initSessionCalls := st.initSessionCalls + 1 }

/-- The ingress WebSocket message handler of setupMeetingBaasClient
(proxy.ts lines 522-603).  Speaker frames update `lastSpeaker` only on a
rising edge (`isSpeaking` and a different name) and then signal the
visualizer; PCM frames are forwarded to the provider iff the provider
session is active, otherwise dropped with a warning count, and appended
to the recording buffer iff recording is enabled; finally every message
is relayed verbatim to the bot client when one is connected
(lines 599-602). -/
def handleMeetingBaasMessage (st : ProxyState) (m : IngressMsg) :
    ProxyState × List Output :=
  let base : ProxyState × List Output :=
    match m with
    | .speakerMeta info =>
      if info.isSpeaking ∧
          (st.lastSpeaker = none ∨ st.lastSpeaker ≠ some info.name) then
        ({ st with lastSpeaker := some info.name },
         [.speakerChangeSignal info.name])
      else (st, [])
    | .otherJson _ => (st, [])
    | .pcm bytes =>
      let gated : ProxyState × List Output :=
        if st.isGladiaSessionActive then (st, [.sendToProvider bytes])
        else ({ st with droppedAudioWarnCount := st.droppedAudioWarnCount + 1 },
              [.warnDroppedAudio])
      let st2 :=
        if st.recordingEnabled then
          { gated.1 with audioBuffers := gated.1.audioBuffers ++ [bytes] }
        else gated.1
      (st2, gated.2)
    | .textFrame _ => (st, [])
  match st.botClient with
  | some _ => (base.1, base.2 ++ [.sendToBot (.relayedIngress m)])
  | none => base

/-- processMeetingBaasWebhook (proxy.ts lines 269-408), state part.  All
event kinds only log and surface to the UI, except `bot.status_change`
with status code `in_call_not_recording`, which — when the session is
still gated and not yet initialized — opens the gate and starts the
transcription session (lines 360-369). -/
def processMeetingBaasWebhook (st : ProxyState) (e : WebhookEvent) : ProxyState :=
  match e.event with
  | "bot.joining" => st
  | "bot.in_waiting_room" => st
  | "bot.joined" => st
  | "bot.left" => st
  | "bot.recording_permission_allowed" => st
  | "bot.recording_permission_denied" => st
  | "recording.started" => st
  | "recording.ready" => st
  | "recording.failed" => st
  | "transcription.ready" => st
  | "transcription.failed" => st
  | "meeting.ended" => st
  | "bot.status_change" =>
    match statusCodeOf e.status with
    | some "joining_call" => st
    | some "in_waiting_room" => st
    | some "in_call_not_recording" =>
      if st.waitingForRecordingStatus ∧ ¬ st.transcriptionInitialized then
        initTranscriptionSession { st with waitingForRecordingStatus := false }
      else st
    | some "in_call_recording" => st
    | some "call_ended" => st
    | _ => st
  | _ => st

/-- One event in a session trace: an inbound ingress WebSocket message,
the asynchronous result of `gladiaClient.initSession()` (the promise
continuation at proxy.ts line 650-651 that sets `isGladiaSessionActive`),
the connection of a new ingress client (setupMeetingBaasClient
lines 503-514, which starts the session immediately when the gate is
already open), or a webhook POST that reached `processMeetingBaasWebhook`. -/
inductive SessionEvent where
  | ingress (m : IngressMsg)
  | gladiaInitResult (success : Bool)
  | meetingBaasConnect
  | webhook (e : WebhookEvent)
deriving Repr, DecidableEq

/-- One step of the session: dispatch a `SessionEvent` to the handler
translated from the corresponding source site. -/
def step (st : ProxyState) (e : SessionEvent) : ProxyState × List Output :=
  match e with
  | .ingress m => handleMeetingBaasMessage st m
  | .gladiaInitResult success => ({ st with isGladiaSessionActive := success }, [])
  | .meetingBaasConnect =>
    if st.waitingForRecordingStatus then (st, [])
    else (initTranscriptionSession st, [])
  | .webhook e => (processMeetingBaasWebhook st e, [])

/-- The payload of a provider-bound send, if the output is one. -/
def providerPayload : Output → Option (List Nat)
  | .sendToProvider bytes => some bytes
  | _ => none

/-- The sequence of audio frames sent to the provider while processing a
list of session events from a given state, in send order. -/
def traceProviderSends (st : ProxyState) : List SessionEvent → List (List Nat)
  | [] => []
  | e :: rest =>
    ((step st e).2.filterMap providerPayload)
      ++ traceProviderSends (step st e).1 rest

/-- Two proxy states that agree on every field the forwarding behaviour
can read (everything except the recording buffer, the dropped-frame
counter and the init-call counter). -/
def ForwardEquiv (s t : ProxyState) : Prop :=
  s.mode = t.mode ∧
  s.waitingForRecordingStatus = t.waitingForRecordingStatus ∧
  s.transcriptionInitialized = t.transcriptionInitialized ∧
  s.isGladiaSessionActive = t.isGladiaSessionActive ∧
  s.lastSpeaker = t.lastSpeaker ∧
  s.botClient = t.botClient ∧
  s.recordingEnabled = t.recordingEnabled

/-- The HTTP response bodies of the webhook route
(proxy.ts lines 234-263). -/
inductive WebhookResponse where
  | ack (event : String)
  | errorBody (error details : String)
deriving Repr, DecidableEq

/-- An HTTP result: status code and JSON body. -/
structure HttpResult where
  status : Nat
  body : WebhookResponse
deriving Repr, DecidableEq

/-- The parsed JSON body of a POST to /webhooks/meetingbaas.  The
`event` field may be absent; the empty string is falsy in the source
check `if (!event.event)`. -/
structure WebhookRequestBody where
  event : Option String
  status : Option StatusValue
deriving Repr, DecidableEq

/-- The POST /webhooks/meetingbaas route handler (proxy.ts lines
234-263).  `proc` abstracts the awaited `processMeetingBaasWebhook`
call, which can reject at runtime; the route's try/catch turns a
rejection into HTTP 500.  A missing or empty `event` field returns
HTTP 400 with a structured error body before any processing. -/
def webhookPost (proc : ProxyState → WebhookEvent → Except String ProxyState)
    (st : ProxyState) (body : WebhookRequestBody) : HttpResult × ProxyState :=
  match body.event with
  | none => (⟨400, .errorBody "Invalid webhook payload" "Missing event type"⟩, st)
  | some ev =>
    if ev = "" then
      (⟨400, .errorBody "Invalid webhook payload" "Missing event type"⟩, st)
    else
      match proc st { event := ev, status := body.status } with
      | .ok st' => (⟨200, .ack ev⟩, st')
      | .error msg => (⟨500, .errorBody "Internal server error" msg⟩, st)

/-- The pure instantiation of the processing step: the state-machine
part of `processMeetingBaasWebhook` never rejects in this model (the
source wraps registered handler errors in their own try/catch,
proxy.ts lines 389-407). -/
def processWebhookExc (st : ProxyState) (e : WebhookEvent) :
    Except String ProxyState :=
  .ok (processMeetingBaasWebhook st e)

/-- A processing step that rejects, standing for a runtime exception
thrown while handling a webhook (exercises the catch branch of the
route). -/
def throwingWebhookProc (_st : ProxyState) (_e : WebhookEvent) :
    Except String ProxyState :=
  .error "handler exception"

/-- setupBotClient (proxy.ts lines 477-501): a connection that sent a
bot registration frame becomes *the* bot client, unconditionally
replacing any previous one; the handler performs no close call (its
only actions are the field assignment and listener registration). -/
def setupBotClient (st : ProxyState) (c : Nat) : ProxyState × List Output :=
  ({ st with botClient := some c }, [])

/-- The transcription callback registered on the Gladia client
(proxy.ts lines 179-198): it builds one transcription envelope and
sends it to the bot client iff one is connected and open.  Returns the
list of (client, payload) deliveries. -/
def onTranscription (st : ProxyState) (text : String) (isFinal : Bool)
    (now : Nat) : List (Nat × BotPayload) :=
  match st.botClient with
  | some c => [(c, .transcription text isFinal now now)]
  | none => []

/-!  ## Transcript journal (transcriptLogger.ts)  -/

/-- Whether a character is whitespace for JavaScript
`String.prototype.trim` (WhiteSpace or LineTerminator code points). -/
def isJsWhitespace (c : Char) : Bool :=
  let n := c.toNat
  n == 0x20 || n == 0x09 || n == 0x0A || n == 0x0B || n == 0x0C ||
  n == 0x0D || n == 0xA0 || n == 0x1680 ||
  (0x2000 ≤ n && n ≤ 0x200A) ||
  n == 0x2028 || n == 0x2029 || n == 0x202F || n == 0x205F ||
  n == 0x3000 || n == 0xFEFF

/-- JavaScript `s.trim()`. -/
def jsTrim (s : String) : String :=
  ⟨((s.data.dropWhile isJsWhitespace).reverse.dropWhile isJsWhitespace).reverse⟩

/-- The update `logTranscript` applies to the `finalTranscripts` array
(transcriptLogger.ts lines 151-154): the text is appended iff the entry
is final and `text.trim()` is truthy, i.e. not the empty string. -/
def logTranscriptFinals (finals : List String) (text : String)
    (isFinal : Bool) : List String :=
  if isFinal ∧ jsTrim text ≠ "" then finals ++ [text] else finals

/-- The `finalTranscripts` array after logging a whole session of
transcript events (text, isFinal) in provider-emission order. -/
def runTranscriptLogger (events : List (String × Bool)) : List String :=
  events.foldl (fun fs e => logTranscriptFinals fs e.1 e.2) []

/-- getFinalTranscriptText (transcriptLogger.ts lines 231-233):
`this.finalTranscripts.join(" ")`.  This is also the full-transcript
body of transcript.txt — writeTextVersion pushes exactly this value as
the body under the FULL TRANSCRIPT heading (line 311). -/
def getFinalTranscriptText (finals : List String) : String :=
  String.intercalate " " finals

/-- Modelled from the spec (§8, Journal round-trip): the concatenation,
separated by single spaces, of the text fields of all events with
`is_final = true`, in emission order.  Used as the comparison point for
the claim about the plain-text artifact. -/
def specFullTranscript (events : List (String × Bool)) : String :=
  String.intercalate " " ((events.filter (fun e => e.2)).map (fun e => e.1))

/-!  ## WAV writer (proxy.ts createWavHeader / saveAudioToFile)  -/

/-- Write `bs` into `buf` starting at `off`, replacing existing bytes
(Node Buffer write semantics for an in-range write). -/
def writeBytes : List Nat → Nat → List Nat → List Nat
  | buf, 0, bs => bs ++ List.drop bs.length buf
  | [], _ + 1, _ => []
  | b :: buf, off + 1, bs => b :: writeBytes buf off bs

/-- The four little-endian bytes Node's `Buffer.writeUInt32LE` stores. -/
def u32le (v : Nat) : List Nat :=
  [v % 256, v / 256 % 256, v / 65536 % 256, v / 16777216 % 256]

/-- The two little-endian bytes Node's `Buffer.writeUInt16LE` stores. -/
def u16le (v : Nat) : List Nat :=
  [v % 256, v / 256 % 256]

/-- The bytes `Buffer.write(s, off)` stores for an ASCII string. -/
def asciiBytes (s : String) : List Nat :=
  s.data.map Char.toNat

/-- `buf.writeUInt32LE(v, off)`. -/
def bufWriteUInt32LE (buf : List Nat) (v off : Nat) : List Nat :=
  writeBytes buf off (u32le v)

/-- `buf.writeUInt16LE(v, off)`. -/
def bufWriteUInt16LE (buf : List Nat) (v off : Nat) : List Nat :=
  writeBytes buf off (u16le v)

/-- `buf.write(s, off)` for ASCII `s`. -/
def bufWriteAscii (buf : List Nat) (s : String) (off : Nat) : List Nat :=
  writeBytes buf off (asciiBytes s)

/-- createWavHeader (proxy.ts lines 711-740): allocate 44 zero bytes and
fill the RIFF/WAVE header fields at their fixed offsets, in source
order. -/
def createWavHeader (dataLength sampleRate channels : Nat) : List Nat :=
  let bitsPerSample := 16
  let byteRate := sampleRate * channels * bitsPerSample / 8
  let blockAlign := channels * bitsPerSample / 8
  let h0 := List.replicate 44 0
  let h1 := bufWriteAscii h0 "RIFF" 0
  let h2 := bufWriteUInt32LE h1 (36 + dataLength) 4
  let h3 := bufWriteAscii h2 "WAVE" 8
  let h4 := bufWriteAscii h3 "fmt " 12
  let h5 := bufWriteUInt32LE h4 16 16
  let h6 := bufWriteUInt16LE h5 1 20
  let h7 := bufWriteUInt16LE h6 channels 22
  let h8 := bufWriteUInt32LE h7 sampleRate 24
  let h9 := bufWriteUInt32LE h8 byteRate 28
  let h10 := bufWriteUInt16LE h9 blockAlign 32
  let h11 := bufWriteUInt16LE h10 bitsPerSample 34
  let h12 := bufWriteAscii h11 "data" 36
  bufWriteUInt32LE h12 dataLength 40

/-- saveAudioToFile (proxy.ts lines 745-778), file-content part: when
recording is disabled or no audio was buffered nothing is written;
otherwise the file is the WAV header for the concatenated buffers
followed by the concatenated buffers. -/
def saveAudioToFileBytes (recordingEnabled : Bool)
    (audioBuffers : List (List Nat)) (sampleRate channels : Nat) :
    Option (List Nat) :=
  if recordingEnabled = false ∨ audioBuffers = [] then none
  else
    let audioData := audioBuffers.flatten
    some (createWavHeader audioData.length sampleRate channels ++ audioData)

/-- Little-endian decoding of a byte list (least significant first). -/
def leDecode (bs : List Nat) : Nat :=
  bs.foldr (fun b acc => b + 256 * acc) 0

/-!  ## Fatal init failure and process exit sites  -/

/-- JavaScript `s.substring(0, n)`. -/
def jsSubstringTo (s : String) (n : Nat) : String :=
  ⟨s.data.take n⟩

/-- The reaction to a failed provider-session start. -/
structure InitFailureReaction where
  displayMsg : String
  shutdownDelayMs : Nat
  exitCode : Nat
deriving Repr, DecidableEq

/-- The failure branch of the transcription-session start (proxy.ts
lines 655-681) combined with handleTranscriptionError (lines 784-815):
the provider error message (`gladiaClient.getLastError()`, which may be
null and where the empty string is falsy) is truncated to 128
characters, prefixed for display, and teardown plus `process.exit(1)`
is scheduled after a 3000 ms grace window. -/
def onInitSessionFailure (rawError : Option String) : InitFailureReaction :=
  let errorMsg :=
    match rawError with
    | some s => if s = "" then "Unknown error" else jsSubstringTo s 128
    | none => "Unknown error"
  { displayMsg := "Failed with message: " ++ errorMsg
    shutdownDelayMs := 3000
    exitCode := 1 }

/-- Every `process.exit` call site in the program (config.ts, index.ts,
proxy.ts), enumerated from the source. -/
inductive ExitSite where
  /-- index.ts line 73: SIGINT graceful shutdown, `process.exit(0)`. -/
  | gracefulSigint
  /-- index.ts line 186 (showUsage): invalid or help CLI arguments. -/
  | cliUsage
  /-- config.ts line 101: MEETING_BAAS_API_KEY missing. -/
  | missingMeetingBaasKey
  /-- config.ts line 110: no transcription provider API key configured. -/
  | noProviderConfigured
  /-- index.ts line 242: `meetingBaasClient.connect` returned false
  (remote bot creation failed at runtime). -/
  | remoteBotCreateFailed
  /-- index.ts line 295: exception escaped `main` during startup. -/
  | startupException
  /-- proxy.ts line 813: provider transcription-session init failed. -/
  | transcriptionInitFailure
deriving Repr, DecidableEq

/-- The exit code each site passes to `process.exit`. -/
def exitCode : ExitSite → Nat
  | .gracefulSigint => 0
  | .cliUsage => 1
  | .missingMeetingBaasKey => 1
  | .noProviderConfigured => 1
  | .remoteBotCreateFailed => 1
  | .startupException => 1
  | .transcriptionInitFailure => 1

/-- Whether an exit site is a configuration error in the sense of the
spec's error taxonomy (§7: missing mandatory credential, invalid
provider configuration, invalid CLI invocation — all checked before any
session work starts). -/
def isConfigurationError : ExitSite → Bool
  | .cliUsage => true
  | .missingMeetingBaasKey => true
  | .noProviderConfigured => true
  | _ => false

/-- Whether a bot-bound payload is a transcription envelope
(`{type:"transcription", data:{text, isFinal, startTime, endTime}}`). -/
def isTranscriptionEnvelope : BotPayload → Bool
  | .transcription _ _ _ _ => true
  | .relayedIngress _ => false

/-!  ## Theorems  -/

/-- Helper: every webhook event other than `bot.status_change` with
status code `in_call_not_recording` leaves the proxy state unchanged. -/
theorem processWebhook_not_gate (st : ProxyState) (e : WebhookEvent)
    (h : ¬ (e.event = "bot.status_change" ∧
            statusCodeOf e.status = some "in_call_not_recording")) :
    processMeetingBaasWebhook st e = st := by
  unfold processMeetingBaasWebhook
  split <;> try rfl
  split <;> try rfl
  exact absurd ⟨by assumption, by assumption⟩ h

/-- Helper: the gate event reduces to the guarded session start. -/
theorem processWebhook_gate (st : ProxyState) (e : WebhookEvent)
    (he : e.event = "bot.status_change")
    (hc : statusCodeOf e.status = some "in_call_not_recording") :
    processMeetingBaasWebhook st e =
      if st.waitingForRecordingStatus ∧ ¬ st.transcriptionInitialized then
        initTranscriptionSession { st with waitingForRecordingStatus := false }
      else st := by
  unfold processMeetingBaasWebhook
  rw [he, hc]
  rfl

/-- C2: a SpeakerMeta frame updates `lastSpeaker` only when
`isSpeaking` is true and the name differs from the recorded speaker (or
none was recorded); an `isSpeaking = false` frame never changes the
field, and an `isSpeaking = true` frame with the current speaker's name
emits no speaker-change signal. -/
theorem speakerMeta_rising_edge (st : ProxyState) (info : SpeakerInfo) :
    (info.isSpeaking = false →
      (handleMeetingBaasMessage st (.speakerMeta info)).1.lastSpeaker
          = st.lastSpeaker ∧
      ∀ n, Output.speakerChangeSignal n
          ∉ (handleMeetingBaasMessage st (.speakerMeta info)).2) ∧
    (st.lastSpeaker = some info.name →
      (handleMeetingBaasMessage st (.speakerMeta info)).1.lastSpeaker
          = st.lastSpeaker ∧
      ∀ n, Output.speakerChangeSignal n
          ∉ (handleMeetingBaasMessage st (.speakerMeta info)).2) ∧
    (info.isSpeaking = true → st.lastSpeaker ≠ some info.name →
      (handleMeetingBaasMessage st (.speakerMeta info)).1.lastSpeaker
          = some info.name ∧
      Output.speakerChangeSignal info.name
          ∈ (handleMeetingBaasMessage st (.speakerMeta info)).2) := by
  refine ⟨?_, ?_, ?_⟩
  · intro h
    cases hb : st.botClient <;> simp [handleMeetingBaasMessage, h, hb]
  · intro h
    cases hb : st.botClient <;> simp [handleMeetingBaasMessage, h, hb]
  · intro h hne
    cases hb : st.botClient <;> simp [handleMeetingBaasMessage, h, hne, hb]

/-- Witness for `speakerMeta_rising_edge` at a concrete state and
frame. -/
theorem speakerMeta_rising_edge_witness :
    (handleMeetingBaasMessage (mkProxyState "Local" false)
        (.speakerMeta ⟨"A", 1, 0, true⟩)).1.lastSpeaker = some "A" ∧
    Output.speakerChangeSignal "A"
      ∈ (handleMeetingBaasMessage (mkProxyState "Local" false)
          (.speakerMeta ⟨"A", 1, 0, true⟩)).2 :=
  (speakerMeta_rising_edge (mkProxyState "Local" false)
    ⟨"A", 1, 0, true⟩).2.2 rfl (by decide)

/-- C5: the only webhook event that alters the session state machine is
`bot.status_change` with status code `in_call_not_recording`, which —
when the gate is closed and no session was started — opens the gate and
starts the transcription session; every other recognized event leaves
the state unchanged. -/
theorem webhook_only_gate_event_mutates (st : ProxyState) (e : WebhookEvent) :
    (¬ (e.event = "bot.status_change" ∧
        statusCodeOf e.status = some "in_call_not_recording") →
      processMeetingBaasWebhook st e = st) ∧
    (e.event = "bot.status_change" →
      statusCodeOf e.status = some "in_call_not_recording" →
      st.waitingForRecordingStatus = true →
      st.transcriptionInitialized = false →
      st.isGladiaSessionActive = false →
      processMeetingBaasWebhook st e =
        { st with waitingForRecordingStatus := false
                  transcriptionInitialized := true
                  initSessionCalls := st.initSessionCalls + 1 }) := by
  refine ⟨fun h => processWebhook_not_gate st e h, ?_⟩
  intro he hc hw hi hg
  rw [processWebhook_gate st e he hc, if_pos ⟨hw, by simp [hi]⟩,
    initTranscriptionSession]
  simp [hi, hg]

/-- Witness for `webhook_only_gate_event_mutates`: the gate event on a
fresh Remote-mode state opens the gate and starts one session; a
`bot.joined` event changes nothing. -/
theorem webhook_only_gate_event_mutates_witness :
    processMeetingBaasWebhook (mkProxyState "Remote" false)
        ⟨"bot.status_change", some (.obj (some "in_call_not_recording"))⟩ =
      { mkProxyState "Remote" false with
          waitingForRecordingStatus := false
          transcriptionInitialized := true
          initSessionCalls := 1 } ∧
    processMeetingBaasWebhook (mkProxyState "Remote" false)
        ⟨"bot.joined", none⟩ = mkProxyState "Remote" false :=
  ⟨(webhook_only_gate_event_mutates (mkProxyState "Remote" false)
      ⟨"bot.status_change", some (.obj (some "in_call_not_recording"))⟩).2
      rfl rfl rfl rfl rfl,
   (webhook_only_gate_event_mutates (mkProxyState "Remote" false)
      ⟨"bot.joined", none⟩).1 (by decide)⟩

/-- C7: processing the same webhook event twice in succession leaves
the state machine exactly as processing it once; in particular no
second provider session is started. -/
theorem webhook_idempotent (st : ProxyState) (e : WebhookEvent) :
    processMeetingBaasWebhook (processMeetingBaasWebhook st e) e
      = processMeetingBaasWebhook st e ∧
    (processMeetingBaasWebhook (processMeetingBaasWebhook st e) e).initSessionCalls
      = (processMeetingBaasWebhook st e).initSessionCalls := by
  refine ⟨?_, ?_⟩
  · by_cases h : e.event = "bot.status_change" ∧
        statusCodeOf e.status = some "in_call_not_recording"
    · obtain ⟨he, hc⟩ := h
      rw [processWebhook_gate st e he hc]
      by_cases hcond : st.waitingForRecordingStatus = true ∧
          ¬ st.transcriptionInitialized = true
      · rw [if_pos hcond, processWebhook_gate _ e he hc, if_neg]
        unfold initTranscriptionSession
        split <;> simp
      · rw [if_neg hcond, processWebhook_gate st e he hc, if_neg hcond]
    · rw [processWebhook_not_gate st e h, processWebhook_not_gate st e h]
  · by_cases h : e.event = "bot.status_change" ∧
        statusCodeOf e.status = some "in_call_not_recording"
    · obtain ⟨he, hc⟩ := h
      rw [processWebhook_gate st e he hc]
      by_cases hcond : st.waitingForRecordingStatus = true ∧
          ¬ st.transcriptionInitialized = true
      · rw [if_pos hcond, processWebhook_gate _ e he hc, if_neg]
        unfold initTranscriptionSession
        split <;> simp
      · rw [if_neg hcond, processWebhook_gate st e he hc, if_neg hcond]
    · rw [processWebhook_not_gate st e h, processWebhook_not_gate st e h]

/-- C6: a POST with a non-empty `event` field whose processing succeeds
is acknowledged with HTTP 200; a body with a missing (or empty, hence
falsy) `event` field gets HTTP 400 with the structured error body and
leaves the state untouched; a processing exception gets HTTP 500. -/
theorem webhookPost_statuses
    (proc : ProxyState → WebhookEvent → Except String ProxyState)
    (st : ProxyState) (body : WebhookRequestBody) :
    ((body.event = none ∨ body.event = some "") →
      webhookPost proc st body =
        (⟨400, .errorBody "Invalid webhook payload" "Missing event type"⟩, st)) ∧
    (∀ ev st', body.event = some ev → ev ≠ "" →
      proc st { event := ev, status := body.status } = .ok st' →
      webhookPost proc st body = (⟨200, .ack ev⟩, st')) ∧
    (∀ ev msg, body.event = some ev → ev ≠ "" →
      proc st { event := ev, status := body.status } = .error msg →
      webhookPost proc st body =
        (⟨500, .errorBody "Internal server error" msg⟩, st)) := by
  refine ⟨?_, ?_, ?_⟩
  · rintro (h | h) <;> simp [webhookPost, h]
  · intro ev st' hev hne hok
    simp [webhookPost, hev, hne, hok]
  · intro ev msg hev hne herr
    simp [webhookPost, hev, hne, herr]

/-- Witness for `webhookPost_statuses`: the three branches at concrete
requests (missing event; `bot.joined`; a processing step that throws). -/
theorem webhookPost_statuses_witness :
    webhookPost processWebhookExc (mkProxyState "Remote" false) ⟨none, none⟩ =
      (⟨400, .errorBody "Invalid webhook payload" "Missing event type"⟩,
        mkProxyState "Remote" false) ∧
    webhookPost processWebhookExc (mkProxyState "Remote" false)
        ⟨some "bot.joined", none⟩ =
      (⟨200, .ack "bot.joined"⟩, mkProxyState "Remote" false) ∧
    webhookPost throwingWebhookProc (mkProxyState "Remote" false)
        ⟨some "bot.joined", none⟩ =
      (⟨500, .errorBody "Internal server error" "handler exception"⟩,
        mkProxyState "Remote" false) :=
  ⟨(webhookPost_statuses processWebhookExc (mkProxyState "Remote" false)
      ⟨none, none⟩).1 (Or.inl rfl),
   (webhookPost_statuses processWebhookExc (mkProxyState "Remote" false)
      ⟨some "bot.joined", none⟩).2.1 "bot.joined" (mkProxyState "Remote" false)
      rfl (by decide) rfl,
   (webhookPost_statuses throwingWebhookProc (mkProxyState "Remote" false)
      ⟨some "bot.joined", none⟩).2.2 "bot.joined" "handler exception"
      rfl (by decide) rfl⟩

/-- C10: registering a second bot client silently replaces the first as
the sole destination of transcription envelopes; the registration closes
no connection, and the earlier bot client receives no further
transcription deliveries. -/
theorem botClient_replacement (st : ProxyState) (c1 c2 : Nat) (text : String)
    (isFinal : Bool) (now : Nat) (hne : c1 ≠ c2) :
    ((setupBotClient (setupBotClient st c1).1 c2).1.botClient = some c2) ∧
    (onTranscription (setupBotClient (setupBotClient st c1).1 c2).1
        text isFinal now
      = [(c2, .transcription text isFinal now now)]) ∧
    (∀ p : BotPayload,
      (c1, p) ∉ onTranscription (setupBotClient (setupBotClient st c1).1 c2).1
          text isFinal now) ∧
    ((setupBotClient (setupBotClient st c1).1 c2).2 = []) := by
  refine ⟨rfl, rfl, ?_, rfl⟩
  intro p
  simp [setupBotClient, onTranscription, hne]

/-- Witness for `botClient_replacement` at concrete clients 1 and 2. -/
theorem botClient_replacement_witness :
    ((setupBotClient (setupBotClient (mkProxyState "Local" false) 1).1 2).1.botClient
        = some 2) ∧
    (∀ p : BotPayload,
      (1, p) ∉ onTranscription
          (setupBotClient (setupBotClient (mkProxyState "Local" false) 1).1 2).1
          "hi" true 5) :=
  ⟨(botClient_replacement (mkProxyState "Local" false) 1 2 "hi" true 5
      (by decide)).1,
   (botClient_replacement (mkProxyState "Local" false) 1 2 "hi" true 5
      (by decide)).2.2.1⟩

/-- Helper: folding the transcript logger accumulates exactly the final
entries whose text is not whitespace-only, in order. -/
theorem runTranscriptLogger_foldl (events : List (String × Bool))
    (acc : List String) :
    events.foldl (fun fs e => logTranscriptFinals fs e.1 e.2) acc
      = acc ++ (events.filter
          (fun e => e.2 && (jsTrim e.1 != ""))).map (fun e => e.1) := by
  induction events generalizing acc with
  | nil => simp
  | cons hd tl ih =>
    rw [List.foldl_cons, ih (logTranscriptFinals acc hd.1 hd.2)]
    by_cases hc : hd.2 = true ∧ jsTrim hd.1 ≠ ""
    · have hb : (hd.2 && (jsTrim hd.1 != "")) = true := by
        simp [hc.1, hc.2]
      rw [logTranscriptFinals, if_pos hc]
      simp [List.filter_cons, hb]
    · have hb : (hd.2 && (jsTrim hd.1 != "")) = false := by
        by_cases h2 : hd.2 = true
        · have h3 : jsTrim hd.1 = "" := by
            by_contra hne
            exact hc ⟨h2, hne⟩
          simp [h2, h3]
        · have h2' : hd.2 = false := by
            revert h2
            cases hd.2 <;> simp
          simp [h2']
      rw [logTranscriptFinals, if_neg hc]
      simp [List.filter_cons, hb]

/-- C3 counterexample: with final events `"a"` and `" "` the plain-text
artifact is `"a"`, while the space-separated concatenation of the text
of *all* final events is `"a  "` — a final event whose text is
whitespace-only is excluded from the artifact. -/
theorem transcript_artifact_counterexample :
    getFinalTranscriptText (runTranscriptLogger [("a", true), (" ", true)])
      ≠ specFullTranscript [("a", true), (" ", true)] := by decide

/-- C3 (amended): the plain-text artifact equals the concatenation,
separated by single spaces, of the text of all final events whose text
is not whitespace-only, in emission order. -/
theorem transcript_artifact_eq (events : List (String × Bool)) :
    getFinalTranscriptText (runTranscriptLogger events)
      = String.intercalate " "
          ((events.filter (fun e => e.2 && (jsTrim e.1 != ""))).map
            (fun e => e.1)) := by
  rw [getFinalTranscriptText, runTranscriptLogger,
    runTranscriptLogger_foldl events []]
  simp

/-- Helper: the WAV header buffer, written field by field at fixed
offsets, equals the concatenation of its encoded fields (in the byte
rate and block align the source computes `bits / 8` explicitly). -/
theorem createWavHeader_explicit (N r c : Nat) :
    createWavHeader N r c =
      asciiBytes "RIFF" ++ u32le (36 + N) ++ asciiBytes "WAVE"
      ++ asciiBytes "fmt " ++ u32le 16 ++ u16le 1 ++ u16le c ++ u32le r
      ++ u32le (r * c * 16 / 8) ++ u16le (c * 16 / 8) ++ u16le 16
      ++ asciiBytes "data" ++ u32le N := rfl

/-- Helper: little-endian 32-bit round trip below 2^32. -/
theorem leDecode_u32le (v : Nat) (h : v < 2 ^ 32) : leDecode (u32le v) = v := by
  simp only [leDecode, u32le, List.foldr]
  omega

/-- Helper: little-endian 16-bit round trip below 2^16. -/
theorem leDecode_u16le (v : Nat) (h : v < 2 ^ 16) : leDecode (u16le v) = v := by
  simp only [leDecode, u16le, List.foldr]
  omega

/-- C4: with recording enabled and N captured PCM bytes, the WAV file is
the 44-byte header followed by the data (total length N + 44), and the
header is exactly RIFF(36+N)/WAVE/fmt(16, PCM=1, channels, rate,
byte rate = rate·channels·2, block align = channels·2, bits = 16)/
data(N), each multi-byte field in little-endian encoding that decodes
back to the stated value. -/
theorem wav_file_layout (bufs : List (List Nat)) (r c : Nat)
    (hbufs : bufs ≠ [])
    (hN : 36 + bufs.flatten.length < 2 ^ 32) (hr : r < 2 ^ 32)
    (hc : c < 2 ^ 16) (hbr : r * c * 2 < 2 ^ 32) (hba : c * 2 < 2 ^ 16) :
    saveAudioToFileBytes true bufs r c
      = some (createWavHeader bufs.flatten.length r c ++ bufs.flatten) ∧
    (createWavHeader bufs.flatten.length r c ++ bufs.flatten).length
      = bufs.flatten.length + 44 ∧
    (createWavHeader bufs.flatten.length r c).length = 44 ∧
    createWavHeader bufs.flatten.length r c
      = asciiBytes "RIFF" ++ u32le (36 + bufs.flatten.length)
        ++ asciiBytes "WAVE" ++ asciiBytes "fmt " ++ u32le 16 ++ u16le 1
        ++ u16le c ++ u32le r ++ u32le (r * c * 2) ++ u16le (c * 2)
        ++ u16le 16 ++ asciiBytes "data" ++ u32le bufs.flatten.length ∧
    leDecode (u32le (36 + bufs.flatten.length)) = 36 + bufs.flatten.length ∧
    leDecode (u16le c) = c ∧
    leDecode (u32le r) = r ∧
    leDecode (u32le (r * c * 2)) = r * c * 2 ∧
    leDecode (u16le (c * 2)) = c * 2 ∧
    leDecode (u32le bufs.flatten.length) = bufs.flatten.length := by
  have hdiv : r * c * 16 / 8 = r * c * 2 := by
    have h16 : r * c * 16 = r * c * 2 * 8 := by ring
    rw [h16, Nat.mul_div_cancel _ (by norm_num)]
  have hdiv2 : c * 16 / 8 = c * 2 := by
    have h16 : c * 16 = c * 2 * 8 := by ring
    rw [h16, Nat.mul_div_cancel _ (by norm_num)]
  have hexp : createWavHeader bufs.flatten.length r c
      = asciiBytes "RIFF" ++ u32le (36 + bufs.flatten.length)
        ++ asciiBytes "WAVE" ++ asciiBytes "fmt " ++ u32le 16 ++ u16le 1
        ++ u16le c ++ u32le r ++ u32le (r * c * 2) ++ u16le (c * 2)
        ++ u16le 16 ++ asciiBytes "data"
        ++ u32le bufs.flatten.length := by
    rw [createWavHeader_explicit, hdiv, hdiv2]
  have hlen : (createWavHeader bufs.flatten.length r c).length = 44 := by
    rw [hexp]
    simp [asciiBytes, u32le, u16le]
  refine ⟨?_, ?_, hlen, hexp, leDecode_u32le _ hN, leDecode_u16le _ hc,
    leDecode_u32le _ hr, leDecode_u32le _ hbr, leDecode_u16le _ hba,
    leDecode_u32le _ (by omega)⟩
  · rw [saveAudioToFileBytes, if_neg]
    simp [hbufs]
  · rw [List.length_append, hlen]
    omega

/-- Witness for `wav_file_layout`: two concrete PCM frames totalling 3
bytes at the configured 16 kHz mono format. -/
theorem wav_file_layout_witness :
    saveAudioToFileBytes true [[10, 20], [30]] 16000 1
      = some (createWavHeader ([[10, 20], [30]] : List (List Nat)).flatten.length
          16000 1 ++ ([[10, 20], [30]] : List (List Nat)).flatten) ∧
    (createWavHeader ([[10, 20], [30]] : List (List Nat)).flatten.length
        16000 1).length = 44 := by
  have h := wav_file_layout [[10, 20], [30]] 16000 1
    (List.cons_ne_nil _ _) (by norm_num) (by norm_num) (by norm_num)
    (by norm_num) (by norm_num)
  exact ⟨h.1, h.2.2.1⟩

/-- C8 counterexample: a failed remote bot creation (index.ts lines
240-243, `meetingBaasClient.connect` returning false at runtime) calls
`process.exit(1)` — a non-zero exit that is neither a configuration
error nor a provider-session init failure. -/
theorem nonzero_exit_counterexample :
    exitCode .remoteBotCreateFailed ≠ 0 ∧
    isConfigurationError .remoteBotCreateFailed = false ∧
    ExitSite.remoteBotCreateFailed ≠ ExitSite.transcriptionInitFailure := by
  decide

/-- C8 (amended): a provider init failure publishes a fatal error whose
provider message is truncated to 128 characters, schedules teardown
after a 3000 ms grace window and exits with code 1; the non-zero exit
sites of the program are exactly configuration/usage errors, remote bot
creation failure, startup exceptions, and provider init failure. -/
theorem init_failure_reaction_and_exits (s : String) (hs : s ≠ "")
    (site : ExitSite) :
    (onInitSessionFailure (some s)).displayMsg
      = "Failed with message: " ++ jsSubstringTo s 128 ∧
    (jsSubstringTo s 128).data.length ≤ 128 ∧
    (onInitSessionFailure (some s)).shutdownDelayMs = 3000 ∧
    (onInitSessionFailure (some s)).exitCode = 1 ∧
    (onInitSessionFailure none).displayMsg
      = "Failed with message: " ++ "Unknown error" ∧
    (exitCode site ≠ 0 ↔
      site ∈ [ExitSite.cliUsage, ExitSite.missingMeetingBaasKey,
        ExitSite.noProviderConfigured, ExitSite.remoteBotCreateFailed,
        ExitSite.startupException, ExitSite.transcriptionInitFailure]) := by
  refine ⟨by simp [onInitSessionFailure, hs], ?_, rfl, rfl, rfl, ?_⟩
  · exact List.length_take_le 128 s.data
  · cases site <;> simp [exitCode]

/-- Witness for `init_failure_reaction_and_exits` at the error string
"unauthorized" and the graceful SIGINT exit site. -/
theorem init_failure_reaction_and_exits_witness :
    (onInitSessionFailure (some "unauthorized")).displayMsg
      = "Failed with message: " ++ jsSubstringTo "unauthorized" 128 ∧
    (onInitSessionFailure (some "unauthorized")).exitCode = 1 ∧
    (exitCode .gracefulSigint ≠ 0 ↔
      ExitSite.gracefulSigint ∈ [ExitSite.cliUsage,
        ExitSite.missingMeetingBaasKey, ExitSite.noProviderConfigured,
        ExitSite.remoteBotCreateFailed, ExitSite.startupException,
        ExitSite.transcriptionInitFailure]) :=
  ⟨(init_failure_reaction_and_exits "unauthorized" (by decide)
      .gracefulSigint).1,
   (init_failure_reaction_and_exits "unauthorized" (by decide)
      .gracefulSigint).2.2.2.1,
   (init_failure_reaction_and_exits "unauthorized" (by decide)
      .gracefulSigint).2.2.2.2.2⟩

/-- C9 (code evaluated at the failing input): a binary PCM ingress
frame arriving while a bot client is registered is relayed verbatim to
the bot client (proxy.ts lines 599-602), and that payload is not a
transcription envelope. -/
theorem pcm_relayed_to_bot_client :
    Output.sendToBot (.relayedIngress (.pcm [0, 1, 2]))
      ∈ (handleMeetingBaasMessage
          { mkProxyState "Local" false with botClient := some 7 }
          (.pcm [0, 1, 2])).2 ∧
    isTranscriptionEnvelope (.relayedIngress (.pcm [0, 1, 2])) = false := by
  decide

/-- Helper: the guarded session start preserves forwarding
equivalence. -/
theorem initTranscriptionSession_forwardEquiv (s t : ProxyState)
    (h : ForwardEquiv s t) :
    ForwardEquiv (initTranscriptionSession s) (initTranscriptionSession t) := by
  obtain ⟨h1, h2, h3, h4, h5, h6, h7⟩ := h
  simp only [initTranscriptionSession, h3, h4]
  by_cases hgg : (t.transcriptionInitialized || t.isGladiaSessionActive) = true <;>
    simp [hgg, ForwardEquiv, h1, h2, h3, h4, h5, h6, h7]

/-- Helper: a session step reads none of the fields excluded from
`ForwardEquiv` (recording buffer, drop counter, init-call counter), so
two forwarding-equivalent states produce identical outputs and stay
forwarding-equivalent. -/
theorem step_forwardEquiv (s t : ProxyState) (e : SessionEvent)
    (h : ForwardEquiv s t) :
    (step s e).2 = (step t e).2 ∧ ForwardEquiv (step s e).1 (step t e).1 := by
  obtain ⟨h1, h2, h3, h4, h5, h6, h7⟩ := h
  cases e with
  | ingress m =>
    cases m with
    | speakerMeta info =>
      simp only [step, handleMeetingBaasMessage, h5, h6]
      by_cases hc : info.isSpeaking = true ∧
          (t.lastSpeaker = none ∨ t.lastSpeaker ≠ some info.name)
      · cases hb : t.botClient <;>
          simp [hb, hc, ForwardEquiv, h1, h2, h3, h4, h5, h6, h7]
      · cases hb : t.botClient <;>
          simp [hb, hc, ForwardEquiv, h1, h2, h3, h4, h5, h6, h7]
    | otherJson raw =>
      simp only [step, handleMeetingBaasMessage, h6]
      cases hb : t.botClient <;>
        simp [hb, ForwardEquiv, h1, h2, h3, h4, h5, h6, h7]
    | pcm bytes =>
      simp only [step, handleMeetingBaasMessage, h4, h6, h7]
      cases hg : t.isGladiaSessionActive <;>
        cases hr : t.recordingEnabled <;> cases hb : t.botClient <;>
          simp [hg, hr, hb, ForwardEquiv, h1, h2, h3, h4, h5, h6, h7]
    | textFrame raw =>
      simp only [step, handleMeetingBaasMessage, h6]
      cases hb : t.botClient <;>
        simp [hb, ForwardEquiv, h1, h2, h3, h4, h5, h6, h7]
  | gladiaInitResult success =>
    simp [step, ForwardEquiv, h1, h2, h3, h4, h5, h6, h7]
  | meetingBaasConnect =>
    by_cases hw : s.waitingForRecordingStatus = true
    · have hwt : t.waitingForRecordingStatus = true := by
        rw [← h2]; exact hw
      simp only [step, if_pos hw, if_pos hwt]
      exact ⟨trivial, h1, h2, h3, h4, h5, h6, h7⟩
    · have hwt : ¬ t.waitingForRecordingStatus = true := by
        rw [← h2]; exact hw
      simp only [step, if_neg hw, if_neg hwt]
      exact ⟨trivial,
        initTranscriptionSession_forwardEquiv s t ⟨h1, h2, h3, h4, h5, h6, h7⟩⟩
  | webhook ev =>
    refine ⟨rfl, ?_⟩
    show ForwardEquiv (processMeetingBaasWebhook s ev)
      (processMeetingBaasWebhook t ev)
    by_cases hg : ev.event = "bot.status_change" ∧
        statusCodeOf ev.status = some "in_call_not_recording"
    · obtain ⟨he, hc⟩ := hg
      rw [processWebhook_gate s ev he hc, processWebhook_gate t ev he hc]
      by_cases hcond : s.waitingForRecordingStatus = true ∧
          ¬ s.transcriptionInitialized = true
      · have hcondt : t.waitingForRecordingStatus = true ∧
            ¬ t.transcriptionInitialized = true := by
          rw [← h2, ← h3]; exact hcond
        rw [if_pos hcond, if_pos hcondt]
        exact initTranscriptionSession_forwardEquiv _ _
          ⟨h1, rfl, h3, h4, h5, h6, h7⟩
      · have hcondt : ¬ (t.waitingForRecordingStatus = true ∧
            ¬ t.transcriptionInitialized = true) := by
          rw [← h2, ← h3]; exact hcond
        rw [if_neg hcond, if_neg hcondt]
        exact ⟨h1, h2, h3, h4, h5, h6, h7⟩
    · rw [processWebhook_not_gate s ev hg, processWebhook_not_gate t ev hg]
      exact ⟨h1, h2, h3, h4, h5, h6, h7⟩

/-- Helper: forwarding-equivalent states produce the same provider send
stream on every event trace. -/
theorem traceProviderSends_congr (s t : ProxyState) (h : ForwardEquiv s t)
    (evs : List SessionEvent) :
    traceProviderSends s evs = traceProviderSends t evs := by
  induction evs generalizing s t with
  | nil => rfl
  | cons e rest ih =>
    obtain ⟨ho, he⟩ := step_forwardEquiv s t e h
    simp only [traceProviderSends, ho, ih _ _ he]

/-- C1: a PCM frame arriving while the provider session is not active
is not sent to the provider, increments the dropped-frame counter, and
is never buffered for later forwarding: on every continuation trace the
provider send stream is exactly what it would have been had the frame
never arrived. -/
theorem gated_audio_dropped (st : ProxyState) (bytes : List Nat)
    (hGate : st.isGladiaSessionActive = false) :
    (∀ b, Output.sendToProvider b
        ∉ (handleMeetingBaasMessage st (.pcm bytes)).2) ∧
    ((handleMeetingBaasMessage st (.pcm bytes)).1.droppedAudioWarnCount
      = st.droppedAudioWarnCount + 1) ∧
    (Output.warnDroppedAudio ∈ (handleMeetingBaasMessage st (.pcm bytes)).2) ∧
    (∀ evs, traceProviderSends (handleMeetingBaasMessage st (.pcm bytes)).1 evs
        = traceProviderSends st evs) := by
  have hequiv : ForwardEquiv (handleMeetingBaasMessage st (.pcm bytes)).1 st := by
    simp only [handleMeetingBaasMessage, hGate]
    cases hb : st.botClient <;> cases hr : st.recordingEnabled <;>
      simp [hb, hr, hGate, ForwardEquiv]
  refine ⟨?_, ?_, ?_, fun evs => traceProviderSends_congr _ _ hequiv evs⟩
  · intro b
    simp only [handleMeetingBaasMessage, hGate]
    cases hb : st.botClient <;> cases hr : st.recordingEnabled <;>
      simp [hb, hr, hGate]
  · simp only [handleMeetingBaasMessage, hGate]
    cases hb : st.botClient <;> cases hr : st.recordingEnabled <;>
      simp [hb, hr, hGate]
  · simp only [handleMeetingBaasMessage, hGate]
    cases hb : st.botClient <;> cases hr : st.recordingEnabled <;>
      simp [hb, hr, hGate]

/-- Witness for `gated_audio_dropped`: a fresh Remote-mode session with
recording enabled drops a concrete frame, counts it, and the provider
stream of a concrete continuation (session opens, another frame
arrives) is unaffected by the dropped frame. -/
theorem gated_audio_dropped_witness :
    (Output.sendToProvider [1, 2]
        ∉ (handleMeetingBaasMessage (mkProxyState "Remote" true)
            (.pcm [1, 2])).2) ∧
    ((handleMeetingBaasMessage (mkProxyState "Remote" true)
        (.pcm [1, 2])).1.droppedAudioWarnCount = 0 + 1) ∧
    (traceProviderSends (handleMeetingBaasMessage (mkProxyState "Remote" true)
          (.pcm [1, 2])).1
        [.gladiaInitResult true, .ingress (.pcm [9])]
      = traceProviderSends (mkProxyState "Remote" true)
        [.gladiaInitResult true, .ingress (.pcm [9])]) :=
  ⟨(gated_audio_dropped (mkProxyState "Remote" true) [1, 2] rfl).1 [1, 2],
   (gated_audio_dropped (mkProxyState "Remote" true) [1, 2] rfl).2.1,
   (gated_audio_dropped (mkProxyState "Remote" true) [1, 2] rfl).2.2.2
     [.gladiaInitResult true, .ingress (.pcm [9])]⟩

end RealtimeTranscription
